import Mathlib

/-!
Verification of the fromatic-backend form service (`app/main.py`,
`app/schemas.py`, `app/database.py`).

The development shallowly embeds the request handlers of `app/main.py`:
the field-schema normalization performed inline in `upload_file`
(the structured/JSON branch and the tabular/.xlsx branch), and the
persistence-facing handlers `register_user`, `upload_file`, `get_form`
and `submit_form_response`.  The relational store declared in
`app/models.py` (absent from the sources; only its callers are present)
is modelled from the spec as in-memory tables with auto-assigned ids.
Cell values of a tabular payload are modelled as strings; a column that
is absent from the table is `none` (matching `row.get(col, "")`
semantics of the source).
-/

deriving instance DecidableEq for Except

namespace Fromatic

/-- Drop leading and trailing whitespace from a character list. -/
def stripChars (l : List Char) : List Char :=
  ((l.dropWhile Char.isWhitespace).reverse.dropWhile Char.isWhitespace).reverse

/-- Python `str.strip()` on the ASCII domain used by the service. -/
def pyStrip (s : String) : String := ⟨stripChars s.data⟩

/-- Python `str.lower()` on the ASCII domain used by the service. -/
def pyLower (s : String) : String := ⟨s.data.map Char.toLower⟩

/-- Python `s.split(",")`: note `"".split(",") == [""]`. -/
def pySplitComma (s : String) : List String :=
  (s.data.splitOn ',').map (fun cs => ⟨cs⟩)

/-- Python `s.endswith(suffix)`. -/
def pyEndsWith (s suffix : String) : Bool :=
  suffix.data.isSuffixOf s.data

/-- Validation rules of a field descriptor (`{"required": bool}` in the source). -/
structure Validation where
  required : Bool
deriving Repr, DecidableEq

/-- A canonical field descriptor, the element type of `Form.fields`
(`field_json` of `app/main.py` and pydantic `FormField` of `app/schemas.py`).
`options = none` models the `options` key being absent from the mapping;
`validation = none` models the `validation` key being absent. -/
structure FieldD where
  label : String
  type : String
  validation : Option Validation
  options : Option (List String)
deriving Repr, DecidableEq

/-- One row of the tabular (.xlsx) payload.  Each column value is a string;
`none` means the column is absent from the table, in which case
`row.get(col, "")` of the source yields `""`. -/
structure Row where
  labelCol : Option String
  typeCol : Option String
  requiredCol : Option String
  optionCol : Option String
deriving Repr, DecidableEq

/-- The per-row transformation of the .xlsx branch of `upload_file`
(`app/main.py` lines 97-114): build `field_json` with trimmed label and
type and the `required` flag, add `options` when the type is `"Dropdown"`
or `"Multiple Choice"`, and remove `options` when the type is `"Text"`
or `"Checkbox"`. -/
def fieldJsonOfRow (r : Row) : FieldD :=
  let field0 : FieldD :=
    { label := pyStrip (r.labelCol.getD "")
      type := pyStrip (r.typeCol.getD "")
      validation := some { required := pyLower (pyStrip (r.requiredCol.getD "")) == "yes" }
      options := none }
  let field1 :=
    if field0.type = "Dropdown" ∨ field0.type = "Multiple Choice" then
      let options := r.optionCol.getD ""
      { field0 with options := some (((pySplitComma options).map pyStrip).filter (fun o => o ≠ "")) }
    else field0
  let field2 :=
    if field1.type = "Text" ∨ field1.type = "Checkbox" then
      { field1 with options := none }
    else field1
  field2

/-- The tabular normalizer: the row loop of `upload_file` lines 95-114,
in row order. -/
def normalizeTabular (rows : List Row) : List FieldD :=
  rows.map fieldJsonOfRow

/-- A structured (JSON) payload as read by `upload_file` lines 77-79:
`data.get("formName")` and `data.get("fields")`, each `none` when the key
is absent. -/
structure JsonPayload where
  formName : Option String
  fields : Option (List FieldD)
deriving Repr, DecidableEq

/-- An error raised while normalizing a structured payload, `HTTPException
(status_code=400, "JSON must contain ...")` in the source. -/
inductive ValidationError where
  | missingNameOrFields
deriving Repr, DecidableEq

/-- The structured branch of `upload_file` (lines 76-82): read
`formName` and `fields` and reject when either is falsy (`None`, the empty
string, or the empty list); otherwise both pass through unchanged. -/
def normalizeJson (p : JsonPayload) : Except ValidationError (String × List FieldD) :=
  let form_name := p.formName.getD ""
  let fields := p.fields.getD []
  if form_name = "" ∨ fields = [] then
    .error .missingNameOrFields
  else
    .ok (form_name, fields)

/-- Modelled from the spec: the `User` row of `app/models.py` (the models
module is absent from the sources; only its callers are present).  Internal
numeric id is store-assigned; `clerk_user_id` is the external
auth-provider id; plus an email. -/
structure UserRec where
  id : Nat
  clerk_user_id : String
  email : String
deriving Repr, DecidableEq

/-- Modelled from the spec: the `Form` row of `app/models.py`: internal
numeric id, external short identifier `form_id`, optional owning user id,
display name, and the ordered field descriptors. -/
structure FormRec where
  id : Nat
  form_id : String
  user_id : Option Nat
  name : String
  fields : List FieldD
deriving Repr, DecidableEq

/-- Modelled from the spec: the `Response` row of `app/models.py`:
internal numeric id, the owning Form's internal id, and an arbitrary
answer payload (modelled as an association list). -/
structure ResponseRec where
  id : Nat
  form_id : Nat
  data : List (String × String)
deriving Repr, DecidableEq

/-- Modelled from the spec: the relational store as in-memory tables with
auto-assigned ascending internal ids.  Each mutating handler commits
atomically: a failed commit leaves the tables untouched. -/
structure DB where
  users : List UserRec
  forms : List FormRec
  responses : List ResponseRec
  nextUserId : Nat
  nextFormId : Nat
  nextResponseId : Nat
deriving Repr, DecidableEq

/-- The empty store. -/
def DB.empty : DB :=
  { users := [], forms := [], responses := [], nextUserId := 1, nextFormId := 1, nextResponseId := 1 }

/-- An injected storage failure raised by `db.commit()`:
`IntegrityError` (a `SQLAlchemyError` subclass raised on a uniqueness
violation) or any other `SQLAlchemyError` carrying a message. -/
inductive CommitFault where
  | integrity
  | storage (msg : String)
deriving Repr, DecidableEq

/-- An HTTP-level error outcome.  `rolledBack` records whether the handler
invoked `db.rollback()` before the error surfaced. -/
structure ApiErr where
  status : Nat
  detail : String
  rolledBack : Bool
deriving Repr, DecidableEq

/-- Incoming registration data (pydantic `UserCreate` of `app/schemas.py`). -/
structure UserCreate where
  clerk_user_id : String
  email : String
deriving Repr, DecidableEq

/-- The `POST /register/` handler (`app/main.py` lines 30-61).  Note that
`fastapi.HTTPException` derives from `Exception`, so the 400
"User already registered." raised inside the `try` block is caught by the
`except Exception` clause and re-surfaced as a 500 wrapping its text
(`str(e)` of a starlette `HTTPException` is `"{status_code}: {detail}"`).
`fault` injects a failure of `db.commit()`. -/
def register_user (db : DB) (user_data : UserCreate) (fault : Option CommitFault) :
    DB × Except ApiErr Nat :=
  match db.users.find? (fun u => u.clerk_user_id == user_data.clerk_user_id) with
  | some _ =>
      (db, .error { status := 500,
                    detail := "Error registering user: 400: User already registered.",
                    rolledBack := true })
  | none =>
      match fault with
      | some .integrity =>
          (db, .error { status := 400,
                        detail := "User with this email or Clerk ID already exists.",
                        rolledBack := true })
      | some (.storage msg) =>
          (db, .error { status := 500,
                        detail := "Error registering user: " ++ msg,
                        rolledBack := true })
      | none =>
          let new_user : UserRec :=
            { id := db.nextUserId, clerk_user_id := user_data.clerk_user_id,
              email := user_data.email }
          ({ db with users := db.users ++ [new_user], nextUserId := db.nextUserId + 1 },
           .ok new_user.id)

/-- The raw upload as seen by `upload_file`: the file name, the result of
`json.loads(contents)` when attempted (`none` models a raise), and the
result of `pd.read_excel(...)` when attempted (`none` models a raise,
caught at line 118). -/
structure UploadFileArg where
  filename : String
  jsonParse : Option JsonPayload
  xlsxParse : Option (List Row)
deriving Repr, DecidableEq

/-- The input stage of the `POST /upload/` handler (`app/main.py` lines
66-119): filename check, then the `.json` branch (a `json.loads` failure
propagates uncaught, answered 500 by the framework) or the `.xlsx` branch.
`form_name` is initialised to `""` (line 67) and is assigned only in the
`.json` branch: the `.xlsx` branch builds `fields` but never sets
`form_name`, so its staged name is always `""`. -/
def uploadNormalize (file : UploadFileArg) : Except ApiErr (String × List FieldD) :=
  if ¬ (pyEndsWith file.filename ".json" ∨ pyEndsWith file.filename ".xlsx") then
    .error { status := 400,
             detail := "Invalid file type. Please upload a JSON or Excel file.",
             rolledBack := false }
  else if pyEndsWith file.filename ".json" then
    match file.jsonParse with
    | none =>
        .error { status := 500, detail := "Internal Server Error",
                 rolledBack := false }
    | some data =>
        match normalizeJson data with
        | .error _ =>
            .error { status := 400,
                     detail := "JSON must contain 'formName' and 'fields'.",
                     rolledBack := false }
        | .ok (form_name, fields) => .ok (form_name, fields)
  else
    match file.xlsxParse with
    | none =>
        .error { status := 400, detail := "Error parsing Excel file: ...",
                 rolledBack := false }
    | some rows => .ok ("", normalizeTabular rows)

/-- The `POST /upload/` handler (`app/main.py` lines 65-140): the staging
of `uploadNormalize` followed by persistence (lines 121-140).  The
generated NanoID is passed in as `form_id` (the random source is an input
of the model); `fault` injects a failure of the `db.commit()` at line
129, caught by `except SQLAlchemyError` with a rollback. -/
def upload_file (db : DB) (file : UploadFileArg) (user_id : Option Nat)
    (form_id : String) (fault : Option CommitFault) : DB × Except ApiErr String :=
  match uploadNormalize file with
  | .error e => (db, .error e)
  | .ok (form_name, fields) =>
      match fault with
      | some _ =>
          (db, .error { status := 500, detail := "Error saving form to the database.",
                        rolledBack := true })
      | none =>
          let new_form : FormRec :=
            { id := db.nextFormId, form_id := form_id, user_id := user_id,
              name := form_name, fields := fields }
          ({ db with forms := db.forms ++ [new_form], nextFormId := db.nextFormId + 1 },
           .ok new_form.form_id)

/-- The `GET /form/{form_id}` handler (`app/main.py` lines 144-166): look
the form up by its external identifier and return its `form_id`, `name`
and `fields`.  The 404 raised inside the `try` is not a `SQLAlchemyError`,
so it propagates.  Fields are stored structured in the model, so the
`isinstance(fields_data, str)` branch of line 156 never fires. -/
def get_form (db : DB) (form_id : String) :
    Except ApiErr (String × String × List FieldD) :=
  match db.forms.find? (fun f => f.form_id == form_id) with
  | none => .error { status := 404, detail := "Form not found", rolledBack := false }
  | some form => .ok (form.form_id, form.name, form.fields)

/-- The `POST /form/{formId}/submit` handler (`app/main.py` lines
173-189).  There is no `try`/`except` around the commit: an injected
storage failure propagates uncaught (FastAPI answers 500) and no
`db.rollback()` is invoked; the failed commit itself leaves the store
unchanged and the session is closed by the `get_db` teardown. -/
def submit_form_response (db : DB) (formId : String)
    (response_data : List (String × String)) (fault : Option CommitFault) :
    DB × Except ApiErr Nat :=
  match db.forms.find? (fun f => f.form_id == formId) with
  | none =>
      (db, .error { status := 404, detail := "Form not found", rolledBack := false })
  | some form =>
      match fault with
      | some _ =>
          (db, .error { status := 500, detail := "Internal Server Error",
                        rolledBack := false })
      | none =>
          let new_response : ResponseRec :=
            { id := db.nextResponseId, form_id := form.id, data := response_data }
          ({ db with responses := db.responses ++ [new_response],
                     nextResponseId := db.nextResponseId + 1 },
           .ok new_response.id)

/-! Shared concrete fixtures used by the theorems below. -/

/-- A tabular row with a choice type and an `Option` column. -/
def colorRow : Row :=
  { labelCol := some "Color", typeCol := some "Dropdown",
    requiredCol := some "yes", optionCol := some "Red, Green, Blue" }

/-- A tabular row with an unrecognized type and `Option` content. -/
def numberRow : Row :=
  { labelCol := some "X", typeCol := some "Number",
    requiredCol := none, optionCol := some "A,B" }

/-- A simple descriptor of type `Text`. -/
def nameField : FieldD :=
  { label := "Name", type := "Text", validation := none, options := none }

/-- A store form used as a fixture. -/
def sampleForm : FormRec :=
  { id := 1, form_id := "f1", user_id := some 7, name := "Survey", fields := [nameField] }

/-- A store holding a single form. -/
def sampleDB : DB :=
  { users := [], forms := [sampleForm], responses := [],
    nextUserId := 1, nextFormId := 2, nextResponseId := 1 }

/-- A registration fixture. -/
def sampleUser : UserCreate := { clerk_user_id := "ck1", email := "a@b.c" }

/-- A well-formed structured upload. -/
def jsonUpload : UploadFileArg :=
  { filename := "f.json",
    jsonParse := some { formName := some "Survey", fields := some [nameField] },
    xlsxParse := none }

/-- A tabular upload carrying one row. -/
def xlsxUpload : UploadFileArg :=
  { filename := "form.xlsx", jsonParse := none, xlsxParse := some [colorRow] }

/-- A tabular upload whose sheet parses to zero rows. -/
def emptyXlsxUpload : UploadFileArg :=
  { filename := "empty.xlsx", jsonParse := none, xlsxParse := some [] }

/-! Helper lemmas shared by the claim theorems. -/

/-- The `validation` field of a normalized row never depends on the
branching over the type. -/
theorem fieldJsonOfRow_validation (r : Row) :
    (fieldJsonOfRow r).validation =
      some { required := pyLower (pyStrip (r.requiredCol.getD "")) == "yes" } := by
  simp only [fieldJsonOfRow]
  split_ifs <;> rfl

/-- Appending one element to a list none of whose elements satisfies the
predicate makes `find?` look only at that element. -/
theorem find?_append_singleton {α : Type} (p : α → Bool) (l : List α) (a : α)
    (hl : ∀ x ∈ l, p x = false) :
    (l ++ [a]).find? p = if p a then some a else none := by
  induction l with
  | nil => cases hpa : p a <;> simp [List.find?, hpa]
  | cons x xs ih =>
    have hx := hl x (by simp)
    simp only [List.cons_append, List.find?, hx]
    exact ih (fun y hy => hl y (by simp [hy]))

/-- The option-splitting rule in the spec's own words: the `Option` column
value split on commas, each piece trimmed, empty pieces discarded, order
preserved. -/
def specSplitOptions (s : String) : List String :=
  ((pySplitComma s).map pyStrip).filter (fun p => p ≠ "")

/-- C4: for every tabular row whose trimmed Type is exactly "Dropdown" or
"Multiple Choice", the descriptor's options equals the Option column value
split on commas with pieces trimmed, empties discarded, order preserved;
"A, B ,,C" yields ["A", "B", "C"]; and when the split yields no pieces the
options key is still present, as an empty sequence. -/
theorem C4_choice_options_split (r : Row)
    (h : pyStrip (r.typeCol.getD "") = "Dropdown" ∨
         pyStrip (r.typeCol.getD "") = "Multiple Choice") :
    (fieldJsonOfRow r).options = some (specSplitOptions (r.optionCol.getD "")) ∧
    specSplitOptions "A, B ,,C" = ["A", "B", "C"] ∧
    specSplitOptions "" = [] := by
  refine ⟨?_, by decide, by decide⟩
  rcases h with h | h <;> simp [fieldJsonOfRow, specSplitOptions, h]

/-- The C4 theorem applied to a concrete Dropdown row with
`Option = "A, B ,,C"`. -/
theorem C4_choice_options_split_witness :
    (fieldJsonOfRow { labelCol := some "Color", typeCol := some "Dropdown",
                      requiredCol := some "yes", optionCol := some "A, B ,,C" }).options =
      some (specSplitOptions ((some "A, B ,,C" : Option String).getD "")) ∧
    specSplitOptions "A, B ,,C" = ["A", "B", "C"] ∧
    specSplitOptions "" = [] :=
  C4_choice_options_split
    { labelCol := some "Color", typeCol := some "Dropdown",
      requiredCol := some "yes", optionCol := some "A, B ,,C" }
    (by decide)

/-- C5: for every tabular row whose trimmed Type is exactly "Text" or
"Checkbox", the descriptor has no options key at all, whatever the Option
column holds. -/
theorem C5_text_checkbox_no_options (r : Row)
    (h : pyStrip (r.typeCol.getD "") = "Text" ∨
         pyStrip (r.typeCol.getD "") = "Checkbox") :
    (fieldJsonOfRow r).options = none := by
  rcases h with h | h <;> simp [fieldJsonOfRow, h]

/-- The C5 theorem applied to a concrete row of type " Text " carrying
`Option` content. -/
theorem C5_text_checkbox_no_options_witness :
    (fieldJsonOfRow { labelCol := some "X", typeCol := some " Text ",
                      requiredCol := some "no", optionCol := some "Red, Green" }).options
      = none :=
  C5_text_checkbox_no_options
    { labelCol := some "X", typeCol := some " Text ",
      requiredCol := some "no", optionCol := some "Red, Green" }
    (by decide)

/-- C6: for every tabular row, `validation.required` is true exactly when
the trimmed, lower-cased Required value equals "yes"; in particular "Yes",
"yes" and "YES" yield true and an absent Required column yields false. -/
theorem C6_required_iff_yes (r : Row) :
    ((fieldJsonOfRow r).validation = some { required := true } ↔
      pyLower (pyStrip (r.requiredCol.getD "")) = "yes") ∧
    (fieldJsonOfRow { r with requiredCol := some "Yes" }).validation
      = some { required := true } ∧
    (fieldJsonOfRow { r with requiredCol := some "yes" }).validation
      = some { required := true } ∧
    (fieldJsonOfRow { r with requiredCol := some "YES" }).validation
      = some { required := true } ∧
    (fieldJsonOfRow { r with requiredCol := none }).validation
      = some { required := false } := by
  refine ⟨?_, ?_, ?_, ?_, ?_⟩ <;> rw [fieldJsonOfRow_validation]
  · simp [beq_iff_eq]
  all_goals rfl

/-- C3 as stated is false: a row with the unrecognized type "Number" and
non-empty Option content "A,B" still yields a descriptor with no options
key; nothing is preserved. -/
theorem C3_counterexample :
    pyStrip ((numberRow.typeCol).getD "") ∉
        (["Text", "Checkbox", "Dropdown", "Multiple Choice"] : List String) ∧
    numberRow.optionCol = some "A,B" ∧
    (fieldJsonOfRow numberRow).options = none := by decide

/-- C3 (amended): for every tabular row whose trimmed Type is not one of
the four recognized types, the descriptor omits the options key
unconditionally, whether or not the Option column has content. -/
theorem C3_unrecognized_type_omits_options (r : Row)
    (h : pyStrip (r.typeCol.getD "") ∉
        (["Text", "Checkbox", "Dropdown", "Multiple Choice"] : List String)) :
    (fieldJsonOfRow r).options = none := by
  simp only [List.mem_cons, List.not_mem_nil, or_false, not_or] at h
  obtain ⟨hT, hC, hD, hM⟩ := h
  simp [fieldJsonOfRow, hT, hC, hD, hM]

/-- The amended C3 theorem applied to the concrete "Number" row. -/
theorem C3_unrecognized_type_omits_options_witness :
    (fieldJsonOfRow numberRow).options = none :=
  C3_unrecognized_type_omits_options numberRow (by decide)

/-- C7: normalizing a structured payload fails with a validation error
exactly when the name or the field sequence is missing or empty, and
otherwise passes the name and the fields through unchanged. -/
theorem C7_normalizeJson_pass_through (p : JsonPayload) :
    (normalizeJson p = .error .missingNameOrFields ↔
      p.formName.getD "" = "" ∨ p.fields.getD [] = []) ∧
    (¬ (p.formName.getD "" = "" ∨ p.fields.getD [] = []) →
      normalizeJson p = .ok (p.formName.getD "", p.fields.getD [])) := by
  by_cases h : p.formName.getD "" = "" ∨ p.fields.getD [] = [] <;>
    simp [normalizeJson, h]

/-- The C7 theorem applied to a concrete well-formed structured payload. -/
theorem C7_normalizeJson_pass_through_witness :
    normalizeJson { formName := some "Survey", fields := some [nameField] } =
      .ok (((some "Survey" : Option String)).getD "",
           ((some [nameField] : Option (List FieldD))).getD []) :=
  (C7_normalizeJson_pass_through
      { formName := some "Survey", fields := some [nameField] }).2 (by decide)

/-- C1 as stated is false on the .xlsx path: a successful tabular upload
persists a Form whose name is the empty string (`form_name` is initialised
to `""` and the `.xlsx` branch never assigns it), and an upload whose
sheet parses to zero rows moreover persists an empty fields sequence. -/
theorem C1_xlsx_upload_violates_form_invariant :
    ((upload_file DB.empty xlsxUpload none "abc123XYZ0" none).2 = .ok "abc123XYZ0" ∧
     (upload_file DB.empty xlsxUpload none "abc123XYZ0" none).1.forms.map FormRec.name
       = [""]) ∧
    ((upload_file DB.empty emptyXlsxUpload none "zzzzzzzzzz" none).2 = .ok "zzzzzzzzzz" ∧
     (upload_file DB.empty emptyXlsxUpload none "zzzzzzzzzz" none).1.forms.map FormRec.fields
       = [[]]) := by decide

/-- C2 as stated is false for response submission: on a storage failure
during `submit_form_response` the error surfaces without any rollback
having been invoked, the handler having no except/rollback around its
commit. -/
theorem C2_counterexample :
    submit_form_response sampleDB "f1" [("q", "a")] (some (.storage "disk full")) =
      (sampleDB, .error { status := 500, detail := "Internal Server Error",
                          rolledBack := false }) := by decide

/-- C2 (amended): on an injected storage failure, user registration and
form creation leave the store unchanged and roll back before the error is
surfaced; response submission also leaves the store unchanged (the failed
commit is atomic and the session is closed by the dependency teardown) but
surfaces the error without invoking a rollback. -/
theorem C2_rollback_behavior (db : DB) (u : UserCreate) (file : UploadFileArg)
    (uid : Option Nat) (fid : String) (formId : String)
    (payload : List (String × String)) (fault : CommitFault) (v : String)
    (hupload : (upload_file db file uid fid none).2 = .ok v)
    (f : FormRec) (hform : db.forms.find? (fun g => g.form_id == formId) = some f) :
    ((register_user db u (some fault)).1 = db ∧
      ∃ e, (register_user db u (some fault)).2 = .error e ∧ e.rolledBack = true) ∧
    upload_file db file uid fid (some fault) =
      (db, .error { status := 500, detail := "Error saving form to the database.",
                    rolledBack := true }) ∧
    submit_form_response db formId payload (some fault) =
      (db, .error { status := 500, detail := "Internal Server Error",
                    rolledBack := false }) := by
  refine ⟨?_, ?_, ?_⟩
  · cases hfind : db.users.find? (fun x => x.clerk_user_id == u.clerk_user_id) with
    | some w =>
        simp [register_user, hfind]
    | none =>
        cases fault with
        | integrity => simp [register_user, hfind]
        | storage msg => simp [register_user, hfind]
  · cases hn : uploadNormalize file with
    | error e => simp [upload_file, hn] at hupload
    | ok nf =>
        cases nf with
        | mk form_name flds => simp [upload_file, hn]
  · simp [submit_form_response, hform]

/-- The amended C2 theorem applied to a concrete store, registration,
structured upload and submission, with a concrete storage fault. -/
theorem C2_rollback_behavior_witness :
    ((register_user sampleDB sampleUser (some (.storage "disk full"))).1 = sampleDB ∧
      ∃ e, (register_user sampleDB sampleUser (some (.storage "disk full"))).2 = .error e ∧
        e.rolledBack = true) ∧
    upload_file sampleDB jsonUpload none "newid0000X" (some (.storage "disk full")) =
      (sampleDB, .error { status := 500, detail := "Error saving form to the database.",
                          rolledBack := true }) ∧
    submit_form_response sampleDB "f1" [("q", "a")] (some (.storage "disk full")) =
      (sampleDB, .error { status := 500, detail := "Internal Server Error",
                          rolledBack := false }) :=
  C2_rollback_behavior sampleDB sampleUser jsonUpload none "newid0000X" "f1" [("q", "a")]
    (.storage "disk full") "newid0000X" (by decide) sampleForm (by decide)

/-- C8: submitting a response whose form identifier matches no existing
form fails with a 404 and leaves the store unchanged; and every response
present after a successful submission either predates it or references
the internal id of a form that existed at creation time. -/
theorem C8_submit_requires_existing_form (db : DB) (formId : String)
    (payload : List (String × String)) (fault : Option CommitFault) :
    ((∀ f ∈ db.forms, f.form_id ≠ formId) →
      submit_form_response db formId payload fault =
        (db, .error { status := 404, detail := "Form not found", rolledBack := false })) ∧
    (∀ db' rid r, submit_form_response db formId payload fault = (db', .ok rid) →
      r ∈ db'.responses → r ∈ db.responses ∨ r.form_id ∈ db.forms.map FormRec.id) := by
  constructor
  · intro h
    have hfind : db.forms.find? (fun f => f.form_id == formId) = none := by
      rw [List.find?_eq_none]
      intro f hf
      simpa using h f hf
    simp [submit_form_response, hfind]
  · intro db' rid r hsub hr
    cases hfind : db.forms.find? (fun f => f.form_id == formId) with
    | none => simp [submit_form_response, hfind] at hsub
    | some f =>
        have hfmem : f ∈ db.forms := List.mem_of_find?_eq_some hfind
        cases fault with
        | some fk => simp [submit_form_response, hfind] at hsub
        | none =>
            simp only [submit_form_response, hfind, Prod.mk.injEq] at hsub
            obtain ⟨hdb', -⟩ := hsub
            rw [← hdb'] at hr
            simp only [List.mem_append, List.mem_singleton] at hr
            rcases hr with hr | hr
            · exact Or.inl hr
            · right
              rw [hr]
              exact List.mem_map.mpr ⟨f, hfmem, rfl⟩

/-- The C8 theorem applied to a concrete store: a submission against an
unknown identifier, and the response row created by a successful one. -/
theorem C8_submit_requires_existing_form_witness :
    submit_form_response sampleDB "zzz" [] none =
      (sampleDB, .error { status := 404, detail := "Form not found",
                          rolledBack := false }) ∧
    (({ id := 1, form_id := 1, data := [("q", "a")] } : ResponseRec) ∈ sampleDB.responses ∨
      ({ id := 1, form_id := 1, data := [("q", "a")] } : ResponseRec).form_id ∈
        sampleDB.forms.map FormRec.id) :=
  ⟨(C8_submit_requires_existing_form sampleDB "zzz" [] none).1 (by decide),
   (C8_submit_requires_existing_form sampleDB "f1" [("q", "a")] none).2
     (submit_form_response sampleDB "f1" [("q", "a")] none).1 1
     { id := 1, form_id := 1, data := [("q", "a")] } (by decide) (by decide)⟩

/-- C9: registering the same auth-provider id twice keeps the first record
intact and unchanged and rejects the second call, but the surfaced error
is a generic 500 (the 400 conflict `HTTPException` raised inside the `try`
is caught by the handler's own `except Exception` and re-wrapped), not a
conflict error. -/
theorem C9_duplicate_registration_surfaces_500 :
    (register_user DB.empty { clerk_user_id := "ck1", email := "a@b.c" } none).1.users =
      [{ id := 1, clerk_user_id := "ck1", email := "a@b.c" }] ∧
    register_user (register_user DB.empty { clerk_user_id := "ck1", email := "a@b.c" } none).1
        { clerk_user_id := "ck1", email := "d@e.f" } none =
      ((register_user DB.empty { clerk_user_id := "ck1", email := "a@b.c" } none).1,
       .error { status := 500,
                detail := "Error registering user: 400: User already registered.",
                rolledBack := true }) := by decide

/-- C10: a successful upload appends exactly one form row carrying the
staged name and fields, and fetching by the returned identifier yields
exactly that persisted name and field sequence, unchanged and in order. -/
theorem C10_upload_fetch_roundtrip (db : DB) (file : UploadFileArg) (uid : Option Nat)
    (fid : String) (db' : DB) (v : String) (form_name : String) (flds : List FieldD)
    (hfresh : ∀ f ∈ db.forms, f.form_id ≠ fid)
    (hnorm : uploadNormalize file = .ok (form_name, flds))
    (h : upload_file db file uid fid none = (db', .ok v)) :
    v = fid ∧
    db'.forms = db.forms ++
      [{ id := db.nextFormId, form_id := fid, user_id := uid,
         name := form_name, fields := flds }] ∧
    get_form db' fid = .ok (fid, form_name, flds) := by
  simp only [upload_file, hnorm, Prod.mk.injEq] at h
  obtain ⟨hdb', hv⟩ := h
  injection hv with hveq
  subst hveq
  refine ⟨rfl, ?_, ?_⟩
  · rw [← hdb']
  · have hfind : db'.forms.find? (fun f => f.form_id == fid) =
        some { id := db.nextFormId, form_id := fid, user_id := uid,
               name := form_name, fields := flds } := by
      rw [← hdb']
      rw [find?_append_singleton]
      · simp
      · intro x hx
        simpa using hfresh x hx
    simp [get_form, hfind]

/-- The C10 theorem applied to a concrete store and structured upload. -/
theorem C10_upload_fetch_roundtrip_witness :
    "newid0000X" = "newid0000X" ∧
    (upload_file sampleDB jsonUpload none "newid0000X" none).1.forms =
      sampleDB.forms ++
        [{ id := sampleDB.nextFormId, form_id := "newid0000X", user_id := none,
           name := "Survey", fields := [nameField] }] ∧
    get_form (upload_file sampleDB jsonUpload none "newid0000X" none).1 "newid0000X" =
      .ok ("newid0000X", "Survey", [nameField]) :=
  C10_upload_fetch_roundtrip sampleDB jsonUpload none "newid0000X"
    (upload_file sampleDB jsonUpload none "newid0000X" none).1 "newid0000X"
    "Survey" [nameField] (by decide) (by decide) (by decide)

end Fromatic
